import Mathlib

/-!
Verification development for the lazispace structured-logging core
(`internal/logger`): severity model, parse, text/JSON emitters, the
bootstrap buffer with replay, and the global registry with its
bootstrap-to-real upgrade protocol.

The Go source is shallowly embedded: stateful code becomes explicit state
passing, `time.Now()` becomes an explicit `Time` argument, `os.Exit` /
`osExit` become an explicit exit-code component in each operation's result,
and writes to the output sink become an explicit list of written strings.
-/

namespace LaziSpace

/-- `LogLevel` from `level.go`: the five-value severity enumeration,
`LevelDebug = 0` through `LevelFatal = 4` (Go `iota`). -/
inductive LogLevel
  | debug
  | info
  | warn
  | error
  | fatal
deriving DecidableEq, Repr

/-- The underlying integer of a `LogLevel` (Go's `iota` values); the Go
code compares levels with `<=` on these integers. -/
def LogLevel.toNat : LogLevel → Nat
  | .debug => 0
  | .info => 1
  | .warn => 2
  | .error => 3
  | .fatal => 4

/-- `LogLevel.String()` from `level.go`: canonical lowercase name.
The level-name constants resolve (via `internal/constants`) to
"debug" / "info" / "warn" / "error"; `levelFatalStr` is "fatal". -/
def LogLevel.string : LogLevel → String
  | .debug => "debug"
  | .info => "info"
  | .warn => "warn"
  | .error => "error"
  | .fatal => "fatal"

/-- `LogLevel.UpperString()` from `level.go`: `strings.ToUpper(l.String())`,
character-wise (the names are ASCII, where Go's uppercasing is
character-wise). -/
def LogLevel.upperString (l : LogLevel) : String :=
  ⟨l.string.data.map Char.toUpper⟩

/-- The sentinel errors of `errors.go` (`ErrUnknownLogLevel`,
`ErrUnknownLogFormat`, `ErrNoLogOutputs`); the first two are observed
wrapped via `fmt.Errorf("%w: %s", err, s)`, so the offending string is
carried alongside. -/
inductive LogErr
  | unknownLogLevel (s : String)
  | unknownLogFormat (s : String)
  | noLogOutputs
deriving DecidableEq, Repr

/-- Rendering of a `LogErr` as Go's `fmt` would render the wrapped error
value (`errors.New` text, plus `": <s>"` for the wrapped forms). -/
def LogErr.message : LogErr → String
  | .unknownLogLevel s => "unknown log level: " ++ s
  | .unknownLogFormat s => "unknown log format: " ++ s
  | .noLogOutputs => "no log outputs enabled"

/-- Go's `strings.ToLower`, character-wise (all level names involved are
ASCII, where Go's and this lowercasing agree). -/
def toLowerGo (s : String) : String :=
  ⟨s.data.map Char.toLower⟩

/-- `parseLevel` from `logger.go`: switch on `strings.ToLower(levelStr)`
over "debug" / "info" / "warn" / "warning" / "error"; any other string
falls to the default case, which returns `LevelInfo` together with an
error wrapping `ErrUnknownLogLevel`.  Mirrors Go's multi-value return
`(LogLevel, error)` as a pair with an optional error. -/
def parseLevel (levelStr : String) : LogLevel × Option LogErr :=
  let l := toLowerGo levelStr
  if l = "debug" then (.debug, none)
  else if l = "info" then (.info, none)
  else if l = "warn" then (.warn, none)
  else if l = "warning" then (.warn, none)
  else if l = "error" then (.error, none)
  else (.info, some (.unknownLogLevel levelStr))

/-- Field values: the Go `any` payloads actually used by this package are
strings, bools, ints and string slices (the factory's `outputs` field). -/
inductive Value
  | str (s : String)
  | bool (b : Bool)
  | int (n : Int)
  | strs (ss : List String)
deriving DecidableEq, Repr

/-- How Go's `fmt` verb `%v` renders the payloads of `Value`. -/
def Value.format : Value → String
  | .str s => s
  | .bool b => if b then "true" else "false"
  | .int n => toString n
  | .strs ss => "[" ++ String.intercalate " " ss ++ "]"

/-- `Field` from `logger.go`: a key/value pair for structured logging. -/
structure Field where
  key : String
  value : Value
deriving DecidableEq, Repr

/-- `NewField` from `logger.go`. -/
def NewField (key : String) (value : Value) : Field :=
  ⟨key, value⟩

/-- An instant, standing in for Go's `time.Time`.  Formatting of instants
(`Format(time.RFC3339)`, `Format("15:04:05.000")`) is kept abstract: the
formatted strings are passed in, or a formatting function is taken as a
parameter, exactly where the Go code formats. -/
structure Time where
  stamp : Nat
deriving DecidableEq, Repr

/-- `logEntry` from the buffered logger: one buffered call with its
creation time, level (as its canonical string, exactly as the source
stores it), message and fields. -/
structure logEntry where
  timestamp : Time
  level : String
  msg : String
  fields : List Field
deriving DecidableEq, Repr

/-- `bufferedLogger.append`: stores the entry at the end of the buffer,
timestamped with the current time (here the explicit `now`). -/
def bufferedAppend (entries : List logEntry) (now : Time) (level msg : String)
    (fields : List Field) : List logEntry :=
  entries ++ [⟨now, level, msg, fields⟩]

/-- `bufferedLogger.Debug`. -/
def bufferedDebug (entries : List logEntry) (now : Time) (msg : String)
    (fields : List Field) : List logEntry :=
  bufferedAppend entries now LogLevel.debug.string msg fields

/-- `bufferedLogger.Info`. -/
def bufferedInfo (entries : List logEntry) (now : Time) (msg : String)
    (fields : List Field) : List logEntry :=
  bufferedAppend entries now LogLevel.info.string msg fields

/-- `bufferedLogger.Warn`. -/
def bufferedWarn (entries : List logEntry) (now : Time) (msg : String)
    (fields : List Field) : List logEntry :=
  bufferedAppend entries now LogLevel.warn.string msg fields

/-- `bufferedLogger.Error`. -/
def bufferedError (entries : List logEntry) (now : Time) (msg : String)
    (fields : List Field) : List logEntry :=
  bufferedAppend entries now LogLevel.error.string msg fields

/-- `bufferedLogger.Fatal`: appends the entry and, unlike every other
logger implementation, does NOT call `osExit` (the source deliberately
omits the exit; the comment says the real logger exits at replay time).
The second component is the exit code produced by the call: `none`. -/
def bufferedFatal (entries : List logEntry) (now : Time) (msg : String)
    (fields : List Field) : List logEntry × Option Nat :=
  (bufferedAppend entries now LogLevel.fatal.string msg fields, none)

/-- `bufferedLogger.Count`: current length of the buffer. -/
def bufferedCount (entries : List logEntry) : Nat :=
  entries.length

/-- One call that `ReplayTo` makes on its target logger: which of the five
methods was invoked, with what message and field list. -/
inductive TargetCall
  | debug (msg : String) (fields : List Field)
  | info (msg : String) (fields : List Field)
  | warn (msg : String) (fields : List Field)
  | error (msg : String) (fields : List Field)
  | fatal (msg : String) (fields : List Field)
deriving DecidableEq, Repr

/-- The `fieldsWithBootstrap` slice built for each replayed entry:
`[NewField("bootstrap", true), NewField("timestamp", ts.Format(RFC3339))]`
prepended to the entry's own fields.  `fmt3339` models
`Format(time.RFC3339)`. -/
def bootstrapFields (fmt3339 : Time → String) (e : logEntry) : List Field :=
  [NewField "bootstrap" (.bool true),
   NewField "timestamp" (.str (fmt3339 e.timestamp))] ++ e.fields

/-- The loop body of `bufferedLogger.ReplayTo`: dispatch each entry on its
level string to the target's matching method.  The target of a replay is a
real (text or JSON) logger, whose `Fatal` calls `osExit(1)` and never
returns, so reaching a fatal entry ends the loop there; the Boolean
records whether that termination happened.  An entry whose level string
matches none of the five cases is skipped (Go `switch` without default). -/
def replayLoop (fmt3339 : Time → String) : List logEntry → List TargetCall × Bool
  | [] => ([], false)
  | e :: rest =>
    let fs := bootstrapFields fmt3339 e
    if e.level = LogLevel.debug.string then
      let r := replayLoop fmt3339 rest
      (.debug e.msg fs :: r.1, r.2)
    else if e.level = LogLevel.info.string then
      let r := replayLoop fmt3339 rest
      (.info e.msg fs :: r.1, r.2)
    else if e.level = LogLevel.warn.string then
      let r := replayLoop fmt3339 rest
      (.warn e.msg fs :: r.1, r.2)
    else if e.level = LogLevel.error.string then
      let r := replayLoop fmt3339 rest
      (.error e.msg fs :: r.1, r.2)
    else if e.level = LogLevel.fatal.string then
      ([.fatal e.msg fs], true)
    else
      replayLoop fmt3339 rest

/-- `bufferedLogger.ReplayTo`: run the loop; only when the loop runs to
completion (no fatal-triggered process exit) does the trailing
`b.entries = nil` execute and clear the buffer.  Returns the calls made on
the target, whether the process exited, and the buffer contents after. -/
def ReplayTo (fmt3339 : Time → String) (entries : List logEntry) :
    List TargetCall × Bool × List logEntry :=
  let r := replayLoop fmt3339 entries
  (r.1, r.2, if r.2 then entries else [])

/-! ## Text emitter (`text.go` content, compiled together with `errors.go`) -/

/-- The sequence of writes that `textLogger.log` performs on its output for
one call, assuming every write succeeds (a failing write aborts the rest
of the call and reports to stderr; the success path is what the output
contract describes).  The segments mirror, in order:
`Fprintf(output, "[%s] %s: %s", ts, level, msg)`, then — only when fields
are present — `Fprint(output, " |")` and one
`Fprintf(output, " %s=%v", k, v)` per field, then `Fprintln(output)`. -/
def textSegments (ts level msg : String) (fields : List Field) : List String :=
  ("[" ++ ts ++ "] " ++ level ++ ": " ++ msg) ::
    ((if fields.length > 0 then
        " |" :: fields.map (fun f => " " ++ f.key ++ "=" ++ f.value.format)
      else []) ++ ["\n"])

/-- The full text line of one `textLogger.log` call (all segments). -/
def textLog (ts level msg : String) (fields : List Field) : String :=
  String.join (textSegments ts level msg fields)

/-- `textLogger.Debug`: logs only when `l.level <= LevelDebug`.  Result is
the list of lines written and the exit code produced by the call. -/
def textDebug (level : LogLevel) (ts msg : String) (fields : List Field) :
    List String × Option Nat :=
  if level.toNat ≤ LogLevel.debug.toNat then
    ([textLog ts LogLevel.debug.upperString msg fields], none)
  else ([], none)

/-- `textLogger.Info`: logs only when `l.level <= LevelInfo`. -/
def textInfo (level : LogLevel) (ts msg : String) (fields : List Field) :
    List String × Option Nat :=
  if level.toNat ≤ LogLevel.info.toNat then
    ([textLog ts LogLevel.info.upperString msg fields], none)
  else ([], none)

/-- `textLogger.Warn`: logs only when `l.level <= LevelWarn`. -/
def textWarn (level : LogLevel) (ts msg : String) (fields : List Field) :
    List String × Option Nat :=
  if level.toNat ≤ LogLevel.warn.toNat then
    ([textLog ts LogLevel.warn.upperString msg fields], none)
  else ([], none)

/-- `textLogger.Error`: logs only when `l.level <= LevelError`. -/
def textError (level : LogLevel) (ts msg : String) (fields : List Field) :
    List String × Option Nat :=
  if level.toNat ≤ LogLevel.error.toNat then
    ([textLog ts LogLevel.error.upperString msg fields], none)
  else ([], none)

/-- `textLogger.Fatal`: logs unconditionally, then calls `osExit(1)`. -/
def textFatal (level : LogLevel) (ts msg : String) (fields : List Field) :
    List String × Option Nat :=
  let _ := level
  ([textLog ts LogLevel.fatal.upperString msg fields], some 1)

/-- Dispatch a call at severity `lvl` to the matching `textLogger` method. -/
def textEmit (level lvl : LogLevel) (ts msg : String) (fields : List Field) :
    List String × Option Nat :=
  match lvl with
  | .debug => textDebug level ts msg fields
  | .info => textInfo level ts msg fields
  | .warn => textWarn level ts msg fields
  | .error => textError level ts msg fields
  | .fatal => textFatal level ts msg fields

/-! ## JSON emitter (`json.go` content, compiled inside `file.go`) -/

/-- Insertion into the Go map `map[string]any`: an existing key is
overwritten in place, a new key is added.  (Association-list model of the
entry map; rendering sorts by key as `encoding/json` does.) -/
def jsonInsert (m : List (String × Value)) (k : String) (v : Value) :
    List (String × Value) :=
  if m.any (fun p => p.1 = k) then
    m.map (fun p => if p.1 = k then (k, v) else p)
  else m ++ [(k, v)]

/-- The entry map built by `jsonLogger.log`: reserved keys `time`, `level`,
`msg`, then each field's key/value inserted in call order (a field whose
key collides with a reserved key silently overwrites it). -/
def jsonEntry (rfc level msg : String) (fields : List Field) :
    List (String × Value) :=
  fields.foldl (fun m f => jsonInsert m f.key f.value)
    [("time", .str rfc), ("level", .str level), ("msg", .str msg)]

/-- JSON string escaping (quotes and backslashes; the payloads this
package emits need no further escapes). -/
def jsonEscape (s : String) : String :=
  String.join (s.toList.map fun c =>
    if c = '\\' then "\\\\"
    else if c = '"' then "\\\""
    else String.singleton c)

/-- JSON rendering of one `Value`. -/
def jsonValue : Value → String
  | .str s => "\"" ++ jsonEscape s ++ "\""
  | .bool b => if b then "true" else "false"
  | .int n => toString n
  | .strs ss =>
    "[" ++ String.intercalate "," (ss.map fun s => "\"" ++ jsonEscape s ++ "\"") ++ "]"

/-- `json.Marshal` of the entry map: one JSON object with keys in sorted
order (Go marshals maps with sorted keys).  Marshalling the value kinds
this package produces cannot fail. -/
def jsonMarshal (m : List (String × Value)) : String :=
  "\x7b" ++
    String.intercalate ","
      ((m.mergeSort (fun a b => a.1 ≤ b.1)).map fun p =>
        "\"" ++ jsonEscape p.1 ++ "\":" ++ jsonValue p.2) ++
  "\x7d"

/-- `jsonLogger.log` success path: write the marshalled data, then the
newline (two `Write` calls on the sink). -/
def jsonLog (rfc level msg : String) (fields : List Field) : List String :=
  [jsonMarshal (jsonEntry rfc level msg fields), "\n"]

/-- `jsonLogger.Debug`: logs only when `l.level <= LevelDebug`. -/
def jsonDebug (level : LogLevel) (rfc msg : String) (fields : List Field) :
    List String × Option Nat :=
  if level.toNat ≤ LogLevel.debug.toNat then
    (jsonLog rfc LogLevel.debug.string msg fields, none)
  else ([], none)

/-- `jsonLogger.Info`: logs only when `l.level <= LevelInfo`. -/
def jsonInfo (level : LogLevel) (rfc msg : String) (fields : List Field) :
    List String × Option Nat :=
  if level.toNat ≤ LogLevel.info.toNat then
    (jsonLog rfc LogLevel.info.string msg fields, none)
  else ([], none)

/-- `jsonLogger.Warn`: logs only when `l.level <= LevelWarn`. -/
def jsonWarn (level : LogLevel) (rfc msg : String) (fields : List Field) :
    List String × Option Nat :=
  if level.toNat ≤ LogLevel.warn.toNat then
    (jsonLog rfc LogLevel.warn.string msg fields, none)
  else ([], none)

/-- `jsonLogger.Error`: logs only when `l.level <= LevelError`. -/
def jsonError (level : LogLevel) (rfc msg : String) (fields : List Field) :
    List String × Option Nat :=
  if level.toNat ≤ LogLevel.error.toNat then
    (jsonLog rfc LogLevel.error.string msg fields, none)
  else ([], none)

/-- `jsonLogger.Fatal`: logs unconditionally, then calls `osExit(1)`. -/
def jsonFatal (level : LogLevel) (rfc msg : String) (fields : List Field) :
    List String × Option Nat :=
  let _ := level
  (jsonLog rfc LogLevel.fatal.string msg fields, some 1)

/-- Dispatch a call at severity `lvl` to the matching `jsonLogger` method. -/
def jsonEmit (level lvl : LogLevel) (rfc msg : String) (fields : List Field) :
    List String × Option Nat :=
  match lvl with
  | .debug => jsonDebug level rfc msg fields
  | .info => jsonInfo level rfc msg fields
  | .warn => jsonWarn level rfc msg fields
  | .error => jsonError level rfc msg fields
  | .fatal => jsonFatal level rfc msg fields

/-! ## Configuration (`internal/app/types.go`) and the factory (`New`) -/

/-- `ConsoleConfig`. -/
structure ConsoleConfig where
  enabled : Bool
deriving DecidableEq, Repr

/-- `FileLogConfig`. -/
structure FileLogConfig where
  enabled : Bool
  path : String
  filename : String
  maxSizeMB : Int
  maxBackups : Int
  maxAgeDays : Int
  compress : Bool
deriving DecidableEq, Repr

/-- `LogConfig`: minimum level string, format string, console and file
output configuration. -/
structure LogConfig where
  level : String
  format : String
  console : ConsoleConfig
  file : FileLogConfig
deriving DecidableEq, Repr

/-- The part of `app.Config` the logger consumes. -/
structure Config where
  log : LogConfig
deriving DecidableEq, Repr

/-- `FormatText` (resolves to "text" via `internal/constants`). -/
def FormatText : String := "text"

/-- `FormatJSON` (resolves to "json" via `internal/constants`). -/
def FormatJSON : String := "json"

/-- An output destination: `os.Stdout` or the rotating file writer. -/
inductive Sink
  | stdout
  | file (path : String)
deriving DecidableEq, Repr

/-- `newFileWriter` from `file.go`: a lumberjack writer on
`filepath.Join(cfg.Log.File.Path, cfg.Log.File.Filename)` (rotation
mechanics are the collaborator's; only the destination matters here). -/
def newFileWriter (cfg : Config) : Sink :=
  .file (cfg.log.file.path ++ "/" ++ cfg.log.file.filename)

/-- A constructed emitter: the text or JSON logger with its minimum level
and its output sinks (the `io.MultiWriter` fan-out list). -/
inductive LoggerImpl
  | text (level : LogLevel) (output : List Sink)
  | json (level : LogLevel) (output : List Sink)
deriving DecidableEq, Repr

/-- The writer list `New` assembles: stdout when console is enabled, then
the file writer when file output is enabled. -/
def newWriters (cfg : Config) : List Sink :=
  (if cfg.log.console.enabled then [Sink.stdout] else []) ++
    (if cfg.log.file.enabled then [newFileWriter cfg] else [])

/-- `New` from `logger.go` (result value only; the package-level
diagnostic calls it makes are modelled separately in `NewLogged`):
(1) parse the level — on error, return it; (2) assemble the writers — if
none, return `ErrNoLogOutputs`; (3) switch on the format — "text" and
"json" build the emitter, anything else returns the wrapped
`ErrUnknownLogFormat`. -/
def New (cfg : Config) : Except LogErr LoggerImpl :=
  match parseLevel cfg.log.level with
  | (_, some e) => .error e
  | (level, none) =>
    let writers := newWriters cfg
    if writers.length = 0 then .error .noLogOutputs
    else if cfg.log.format = FormatText then .ok (.text level writers)
    else if cfg.log.format = FormatJSON then .ok (.json level writers)
    else .error (.unknownLogFormat cfg.log.format)

/-! ## Global registry (`logger.go`) -/

/-- What the global `var global Logger` holds: nothing (uninitialized), the
bootstrap buffer (with its entries), or a real emitter. -/
inductive GlobalLogger
  | buffered (entries : List logEntry)
  | real (impl : LoggerImpl)
deriving DecidableEq, Repr

/-- The registry state: `none` models `global == nil`. -/
def GlobalState := Option GlobalLogger
deriving instance DecidableEq, Repr for GlobalState

/-- Invoke a method of a real emitter: `ts` is the already-formatted
text timestamp, `rfc` the already-formatted RFC3339 timestamp (each
emitter formats the current time itself; the sink list does not influence
what is written, only where). -/
def implCall (impl : LoggerImpl) (lvl : LogLevel) (ts rfc msg : String)
    (fields : List Field) : List String × Option Nat :=
  match impl with
  | .text level _ => textEmit level lvl ts msg fields
  | .json level _ => jsonEmit level lvl rfc msg fields

/-- The shared body of the package-level `Debug`/`Info`/`Warn`/`Error`
functions: snapshot the global under the read lock; if nil, do nothing;
if the buffer is current, append; if a real emitter is current, emit.
Result: new state, writes, exit code of the inner call. -/
def globalLog (st : GlobalState) (lvl : LogLevel) (now : Time)
    (ts rfc msg : String) (fields : List Field) :
    GlobalState × List String × Option Nat :=
  match st with
  | none => (none, [], none)
  | some (.buffered es) =>
    (some (.buffered (bufferedAppend es now lvl.string msg fields)), [], none)
  | some (.real impl) =>
    let r := implCall impl lvl ts rfc msg fields
    (st, r.1, r.2)

/-- Package-level `Debug`. -/
def globalDebug (st : GlobalState) (now : Time) (ts rfc msg : String)
    (fields : List Field) : GlobalState × List String × Option Nat :=
  globalLog st .debug now ts rfc msg fields

/-- Package-level `Info`. -/
def globalInfo (st : GlobalState) (now : Time) (ts rfc msg : String)
    (fields : List Field) : GlobalState × List String × Option Nat :=
  globalLog st .info now ts rfc msg fields

/-- Package-level `Warn`. -/
def globalWarn (st : GlobalState) (now : Time) (ts rfc msg : String)
    (fields : List Field) : GlobalState × List String × Option Nat :=
  globalLog st .warn now ts rfc msg fields

/-- Package-level `Error`. -/
def globalError (st : GlobalState) (now : Time) (ts rfc msg : String)
    (fields : List Field) : GlobalState × List String × Option Nat :=
  globalLog st .error now ts rfc msg fields

/-- Package-level `Fatal`: invoke the current logger's `Fatal` if one is
installed, then `os.Exit(1)`.  When the installed logger is a real
emitter its own `Fatal` already exits (code 1); when it is the buffer or
nothing is installed, the trailing unconditional `os.Exit(1)` runs.
Either way the call never returns. -/
def globalFatal (st : GlobalState) (now : Time) (ts rfc msg : String)
    (fields : List Field) : GlobalState × List String × Option Nat :=
  let r := globalLog st .fatal now ts rfc msg fields
  match r.2.2 with
  | some c => (r.1, r.2.1, some c)
  | none => (r.1, r.2.1, some 1)

/-! ## The factory's self-logging, and `UpgradeFromBootstrap` -/

/-- The `outputTypes` diagnostic list `New` builds alongside the writers. -/
def newOutputTypes (cfg : Config) : List String :=
  (if cfg.log.console.enabled then ["console"] else []) ++
    (if cfg.log.file.enabled then ["file"] else [])

/-- `New` as it executes while the bootstrap buffer is the current global
logger: every package-level `Debug`/`Info`/`Error` call `New` (and
`newFileWriter`) makes appends a diagnostic entry to the buffer.  Returns
the factory result together with the buffer afterwards.  The appended
entries mirror the source's calls line by line. -/
def NewLogged (cfg : Config) (now : Time) (es : List logEntry) :
    Except LogErr LoggerImpl × List logEntry :=
  let es := bufferedDebug es now "initializing logger"
    [NewField "level" (.str cfg.log.level), NewField "format" (.str cfg.log.format)]
  match parseLevel cfg.log.level with
  | (_, some e) =>
    (.error e,
     bufferedError es now "failed to parse log level"
       [NewField "level" (.str cfg.log.level), NewField "error" (.str e.message)])
  | (level, none) =>
    let es := if cfg.log.file.enabled then
        bufferedDebug es now "configuring file writer"
          [NewField "path" (.str (cfg.log.file.path ++ "/" ++ cfg.log.file.filename)),
           NewField "max_size_mb" (.int cfg.log.file.maxSizeMB),
           NewField "max_backups" (.int cfg.log.file.maxBackups),
           NewField "max_age_days" (.int cfg.log.file.maxAgeDays),
           NewField "compress" (.bool cfg.log.file.compress)]
      else es
    let writers := newWriters cfg
    if writers.length = 0 then
      (.error .noLogOutputs,
       bufferedError es now "no log outputs enabled in configuration" [])
    else
      let es := bufferedDebug es now "logger outputs configured"
        [NewField "outputs" (.strs (newOutputTypes cfg))]
      if cfg.log.format = FormatText then
        (.ok (.text level writers),
         bufferedInfo es now "logger initialized successfully"
           [NewField "format" (.str "text"), NewField "level" (.str level.string)])
      else if cfg.log.format = FormatJSON then
        (.ok (.json level writers),
         bufferedInfo es now "logger initialized successfully"
           [NewField "format" (.str "json"), NewField "level" (.str level.string)])
      else
        (.error (.unknownLogFormat cfg.log.format),
         bufferedError es now "unknown log format"
           [NewField "format" (.str cfg.log.format)])

/-- Outcome of one `UpgradeFromBootstrap` run.  `ret` is `some r` when the
function returned (`r = none` is Go's `nil` error), and `none` when the
process exited during replay so the function never returned.  `final` is
the global registry state afterwards, `replayed` the calls delivered to
the new emitter, `writes` the sink output of the trailing
`Info("upgraded from bootstrap logger")` (the replayed calls' own sink
output follows from `implCall` per entry and is not re-tracked here). -/
structure UpgradeResult where
  ret : Option (Option LogErr)
  final : GlobalState
  exited : Option Nat
  replayed : List TargetCall
  writes : List String
deriving DecidableEq, Repr

/-- `UpgradeFromBootstrap(cfg, buffer)` in the protocol state that
`InitBootstrap` establishes: the handle and the current global logger are
the same bootstrap buffer, holding `es`.  Steps, mirroring the source:
read `Count()`; `Debug("upgrading from bootstrap logger", ...)` (appends
to the buffer, which is current); run the factory (its diagnostics also
append); on factory error, `Error(...)` (appends) and return the error
with the buffer still current; on success, `buffer.ReplayTo(realLogger)` —
if replay reaches a fatal entry the process exits with the buffer still
current and nothing installed; otherwise the buffer is cleared, the real
logger is installed as current, and `Info("upgraded ...")` is emitted
through it before returning nil. -/
def UpgradeFromBootstrap (fmt3339 : Time → String) (now : Time)
    (ts rfc : String) (cfg : Config) (es : List logEntry) : UpgradeResult :=
  let count := bufferedCount es
  let es1 := bufferedDebug es now "upgrading from bootstrap logger"
    [NewField "buffered_logs" (.int count)]
  match NewLogged cfg now es1 with
  | (.error e, es2) =>
    let es3 := bufferedError es2 now "failed to create real logger during upgrade"
      [NewField "error" (.str e.message)]
    { ret := some (some e), final := some (.buffered es3), exited := none,
      replayed := [], writes := [] }
  | (.ok impl, es2) =>
    let r := replayLoop fmt3339 es2
    if r.2 then
      { ret := none, final := some (.buffered es2), exited := some 1,
        replayed := r.1, writes := [] }
    else
      let w := implCall impl .info ts rfc "upgraded from bootstrap logger"
        [NewField "replayed_logs" (.int count)]
      { ret := some none, final := some (.real impl), exited := none,
        replayed := r.1, writes := w.1 }

/-- `Init` from `logger.go`: build via the factory; on error return it with
the global unchanged; on success install the new logger. -/
def Init (cfg : Config) (st : GlobalState) : Option LogErr × GlobalState :=
  match New cfg with
  | .error e => (some e, st)
  | .ok impl => (none, some (.real impl))

/-- `InitBootstrap`: install a fresh empty buffer as current. -/
def InitBootstrap : GlobalState :=
  some (.buffered [])

/-! ## Shared sample inputs for witnesses and counterexamples -/

/-- A fixed instant. -/
def sampleTime : Time := ⟨0⟩

/-- A concrete stand-in for `Format(time.RFC3339)`. -/
def sampleFmt : Time → String := fun t => "1970-01-01T00:00:0" ++ toString t.stamp ++ "Z"

/-- A valid configuration: level "info", format "text", console on, file off. -/
def sampleCfgText : Config :=
  ⟨⟨"info", "text", ⟨true⟩, ⟨false, "", "", 0, 0, 0, false⟩⟩⟩

/-- A configuration with console and file output both disabled. -/
def sampleCfgNoOut : Config :=
  ⟨⟨"info", "text", ⟨false⟩, ⟨false, "", "", 0, 0, 0, false⟩⟩⟩

/-- The spec scenario buffer: `Debug("x")`, `Info("y")`, `Fatal("z")`,
`Info("never")`, in that order. -/
def sampleScenario : List logEntry :=
  [⟨sampleTime, "debug", "x", []⟩, ⟨sampleTime, "info", "y", []⟩,
   ⟨sampleTime, "fatal", "z", []⟩, ⟨sampleTime, "info", "never", []⟩]

/-! ## Claim C3: parseLevel -/

/-- C3, counterexample: "fatal" names one of the five severities, but
`parseLevel "fatal"` does not return `LevelFatal` — it falls to the
default case and returns `LevelInfo` with an error wrapping
`ErrUnknownLogLevel`.  (The switch in `logger.go` has cases only for
debug / info / warn / warning / error.) -/
theorem c3_fatal_counterexample :
    parseLevel "fatal" = (LogLevel.info, some (.unknownLogLevel "fatal")) := by
  rfl

/-- C3, amended: for every string whose lowercasing names one of the FOUR
severities debug / info / warn / error, or the alias "warning",
`parseLevel` returns the corresponding `LogLevel` with no error; for
every other input — including the empty string and every casing of
"fatal" — it returns an error wrapping `ErrUnknownLogLevel` (with
`LevelInfo` as the discarded level value). -/
theorem c3_parseLevel_amended (s : String) :
    (toLowerGo s = "debug" → parseLevel s = (.debug, none)) ∧
    (toLowerGo s = "info" → parseLevel s = (.info, none)) ∧
    (toLowerGo s = "warn" → parseLevel s = (.warn, none)) ∧
    (toLowerGo s = "warning" → parseLevel s = (.warn, none)) ∧
    (toLowerGo s = "error" → parseLevel s = (.error, none)) ∧
    (toLowerGo s ∉ (["debug", "info", "warn", "warning", "error"] : List String) →
      parseLevel s = (.info, some (.unknownLogLevel s))) := by
  refine ⟨fun h => ?_, fun h => ?_, fun h => ?_, fun h => ?_, fun h => ?_, fun h => ?_⟩
  · simp [parseLevel, h]
  · simp [parseLevel, h]
  · simp [parseLevel, h]
  · simp [parseLevel, h]
  · simp [parseLevel, h]
  · simp only [List.mem_cons, List.mem_singleton, not_or] at h
    obtain ⟨h1, h2, h3, h4, h5, -⟩ := h
    simp [parseLevel, h1, h2, h3, h4, h5]

/-- C3 witness: concrete instances of the amended statement — the
mixed-case alias "WARNING" parses to `LevelWarn`, and the unknown string
"verbose" is rejected with the wrapped unknown-level error. -/
theorem c3_parseLevel_amended_witness :
    parseLevel "WARNING" = (.warn, none) ∧
    parseLevel "verbose" = (.info, some (.unknownLogLevel "verbose")) := by
  constructor
  · exact (c3_parseLevel_amended "WARNING").2.2.2.1 (by decide)
  · exact (c3_parseLevel_amended "verbose").2.2.2.2.2 (by decide)

/-! ## Replay lemmas and claims C1, C7, C8 -/

/-- Replay of a buffer whose entries are all non-fatal and canonically
levelled: every entry is re-emitted, in order, to the matching target
method, with the two synthetic fields prepended, and the loop completes. -/
theorem replayLoop_no_fatal (fmt3339 : Time → String) (es : List logEntry)
    (h : ∀ e ∈ es, e.level = LogLevel.debug.string ∨ e.level = LogLevel.info.string ∨
      e.level = LogLevel.warn.string ∨ e.level = LogLevel.error.string) :
    replayLoop fmt3339 es =
      (es.map (fun e =>
        if e.level = LogLevel.debug.string then .debug e.msg (bootstrapFields fmt3339 e)
        else if e.level = LogLevel.info.string then .info e.msg (bootstrapFields fmt3339 e)
        else if e.level = LogLevel.warn.string then .warn e.msg (bootstrapFields fmt3339 e)
        else .error e.msg (bootstrapFields fmt3339 e)), false) := by
  induction es with
  | nil => rfl
  | cons e rest ih =>
    have he := h e (List.mem_cons_self e rest)
    have hrest : ∀ e' ∈ rest, e'.level = LogLevel.debug.string ∨
        e'.level = LogLevel.info.string ∨ e'.level = LogLevel.warn.string ∨
        e'.level = LogLevel.error.string :=
      fun e' he' => h e' (List.mem_cons_of_mem e he')
    rcases he with he | he | he | he <;>
      simp [replayLoop, he, ih hrest, LogLevel.string]

/-- Replay of a buffer that reaches a fatal entry: the entries before the
first fatal entry are re-emitted in order, then the target's `Fatal` is
invoked for the fatal entry — which exits the process — and nothing that
follows the fatal entry in buffer order is ever re-emitted. -/
theorem replayLoop_fatal (fmt3339 : Time → String) (pre : List logEntry)
    (e : logEntry) (post : List logEntry)
    (he : e.level = LogLevel.fatal.string)
    (hpre : ∀ e' ∈ pre, e'.level ≠ LogLevel.fatal.string) :
    replayLoop fmt3339 (pre ++ e :: post) =
      ((replayLoop fmt3339 pre).1 ++ [.fatal e.msg (bootstrapFields fmt3339 e)], true) := by
  induction pre with
  | nil =>
    simp [replayLoop, he, LogLevel.string]
  | cons a pre' ih =>
    have ha : a.level ≠ LogLevel.fatal.string := hpre a (List.mem_cons_self a pre')
    have hpre' : ∀ e' ∈ pre', e'.level ≠ LogLevel.fatal.string :=
      fun e' he' => hpre e' (List.mem_cons_of_mem a he')
    have ih' := ih hpre'
    simp only [LogLevel.string] at ha
    by_cases h1 : a.level = LogLevel.debug.string
    · simp [replayLoop, h1, ih', LogLevel.string]
    · by_cases h2 : a.level = LogLevel.info.string
      · simp [replayLoop, h1, h2, ih', LogLevel.string]
      · by_cases h3 : a.level = LogLevel.warn.string
        · simp [replayLoop, h1, h2, h3, ih', LogLevel.string]
        · by_cases h4 : a.level = LogLevel.error.string
          · simp [replayLoop, h1, h2, h3, h4, ih', LogLevel.string]
          · simp only [LogLevel.string] at h1 h2 h3 h4
            simp [replayLoop, h1, h2, h3, h4, ha, ih', LogLevel.string]

/-- C1: `bufferedLogger.Fatal` appends an entry — the count grows by one —
and produces no process exit (the buffer defers termination); and during
`ReplayTo`, a buffer consisting of fatal-free entries, then a fatal entry,
then arbitrary later entries, re-emits the fatal-free prefix, then invokes
the target's `Fatal` (the terminal operation, exiting the process), and
never re-emits any entry later in buffer order than that first fatal
entry. -/
theorem c1_buffered_fatal_defers_exit_replay_terminates :
    (∀ (es : List logEntry) (now : Time) (msg : String) (fields : List Field),
      bufferedCount (bufferedFatal es now msg fields).1 = bufferedCount es + 1 ∧
      (bufferedFatal es now msg fields).2 = none) ∧
    (∀ (fmt3339 : Time → String) (pre : List logEntry) (e : logEntry)
        (post : List logEntry),
      e.level = LogLevel.fatal.string →
      (∀ e' ∈ pre, e'.level ≠ LogLevel.fatal.string) →
      replayLoop fmt3339 (pre ++ e :: post) =
        ((replayLoop fmt3339 pre).1 ++ [.fatal e.msg (bootstrapFields fmt3339 e)],
         true)) := by
  constructor
  · intro es now msg fields
    constructor
    · simp [bufferedCount, bufferedFatal, bufferedAppend]
    · rfl
  · exact replayLoop_fatal

/-- C1 witness: the spec scenario.  Buffering `Fatal("z")` onto the
two-entry buffer `[Debug("x"), Info("y")]` leaves three entries and does
not exit; replaying the four-entry scenario buffer emits `x`, `y`, then
the terminal `z`, and never emits `never`. -/
theorem c1_buffered_fatal_defers_exit_replay_terminates_witness :
    (bufferedCount (bufferedFatal
        [⟨sampleTime, "debug", "x", []⟩, ⟨sampleTime, "info", "y", []⟩]
        sampleTime "z" []).1 = 3 ∧
      (bufferedFatal
        [⟨sampleTime, "debug", "x", []⟩, ⟨sampleTime, "info", "y", []⟩]
        sampleTime "z" []).2 = none) ∧
    replayLoop sampleFmt sampleScenario =
      ((replayLoop sampleFmt
          [⟨sampleTime, "debug", "x", []⟩, ⟨sampleTime, "info", "y", []⟩]).1 ++
        [.fatal "z" (bootstrapFields sampleFmt ⟨sampleTime, "fatal", "z", []⟩)],
       true) := by
  constructor
  · exact c1_buffered_fatal_defers_exit_replay_terminates.1
      [⟨sampleTime, "debug", "x", []⟩, ⟨sampleTime, "info", "y", []⟩]
      sampleTime "z" []
  · exact c1_buffered_fatal_defers_exit_replay_terminates.2 sampleFmt
      [⟨sampleTime, "debug", "x", []⟩, ⟨sampleTime, "info", "y", []⟩]
      ⟨sampleTime, "fatal", "z", []⟩ [⟨sampleTime, "info", "never", []⟩]
      (by rfl) (by decide)

/-- C7: `ReplayTo` re-emits the buffered entries in exact append order,
each through the target method matching its level, and each re-emitted
entry carries exactly the two synthetic fields `bootstrap=true` and
`timestamp=<original creation time, RFC3339>` prepended before its own
fields.  Stated for buffers of non-fatal entries (a fatal entry terminates
the process mid-replay; that behavior is the subject of C1). -/
theorem c7_replay_order_and_synthetic_fields (fmt3339 : Time → String)
    (es : List logEntry)
    (h : ∀ e ∈ es, e.level = LogLevel.debug.string ∨ e.level = LogLevel.info.string ∨
      e.level = LogLevel.warn.string ∨ e.level = LogLevel.error.string) :
    (ReplayTo fmt3339 es).1 =
      es.map (fun e =>
        let fs := [NewField "bootstrap" (.bool true),
                   NewField "timestamp" (.str (fmt3339 e.timestamp))] ++ e.fields
        if e.level = LogLevel.debug.string then .debug e.msg fs
        else if e.level = LogLevel.info.string then .info e.msg fs
        else if e.level = LogLevel.warn.string then .warn e.msg fs
        else .error e.msg fs) := by
  have := replayLoop_no_fatal fmt3339 es h
  simp only [ReplayTo, this, bootstrapFields]

/-- C7 witness: a four-entry buffer with one entry per non-fatal level
replays to the four matching target calls, in order, with the synthetic
fields in front of the original fields. -/
theorem c7_replay_order_and_synthetic_fields_witness :
    (ReplayTo sampleFmt
        [⟨sampleTime, "debug", "a", [NewField "k" (.str "v")]⟩,
         ⟨sampleTime, "info", "b", []⟩,
         ⟨sampleTime, "warn", "c", []⟩,
         ⟨sampleTime, "error", "d", []⟩]).1 =
      [.debug "a" [NewField "bootstrap" (.bool true),
                   NewField "timestamp" (.str (sampleFmt sampleTime)),
                   NewField "k" (.str "v")],
       .info "b" [NewField "bootstrap" (.bool true),
                  NewField "timestamp" (.str (sampleFmt sampleTime))],
       .warn "c" [NewField "bootstrap" (.bool true),
                  NewField "timestamp" (.str (sampleFmt sampleTime))],
       .error "d" [NewField "bootstrap" (.bool true),
                   NewField "timestamp" (.str (sampleFmt sampleTime))]] := by
  rw [c7_replay_order_and_synthetic_fields sampleFmt _ (by decide)]
  rfl

/-- C8: when a replay runs to completion (no fatal-triggered exit), the
buffer afterwards is empty — `Count()` is 0 — and a second `ReplayTo` with
no intervening appends makes no calls on the target: the entries are
emitted exactly once. -/
theorem c8_replay_idempotent (fmt3339 : Time → String) (es : List logEntry)
    (h : (replayLoop fmt3339 es).2 = false) :
    (ReplayTo fmt3339 es).2.2 = [] ∧
    bufferedCount (ReplayTo fmt3339 es).2.2 = 0 ∧
    ReplayTo fmt3339 (ReplayTo fmt3339 es).2.2 = ([], false, []) := by
  simp [ReplayTo, h, bufferedCount, replayLoop]

/-- C8 witness: replaying a two-entry fatal-free buffer clears it and a
second replay is a no-op. -/
theorem c8_replay_idempotent_witness :
    (ReplayTo sampleFmt
        [⟨sampleTime, "debug", "x", []⟩, ⟨sampleTime, "info", "y", []⟩]).2.2 = [] ∧
    bufferedCount (ReplayTo sampleFmt
        [⟨sampleTime, "debug", "x", []⟩, ⟨sampleTime, "info", "y", []⟩]).2.2 = 0 ∧
    ReplayTo sampleFmt (ReplayTo sampleFmt
        [⟨sampleTime, "debug", "x", []⟩,
         ⟨sampleTime, "info", "y", []⟩]).2.2 = ([], false, []) :=
  c8_replay_idempotent sampleFmt
    [⟨sampleTime, "debug", "x", []⟩, ⟨sampleTime, "info", "y", []⟩] (by rfl)

/-! ## String-join helpers, claims C4 and C9 -/

theorem string_join_cons (s : String) (l : List String) :
    String.join (s :: l) = s ++ String.join l := by
  apply String.ext
  simp [String.join_eq]

theorem string_join_append (a b : List String) :
    String.join (a ++ b) = String.join a ++ String.join b := by
  apply String.ext
  simp [String.join_eq]

/-- The single line `textLogger.log` writes, as one closed-form string. -/
theorem textLog_eq (ts level msg : String) (fields : List Field) :
    textLog ts level msg fields =
      "[" ++ ts ++ "] " ++ level ++ ": " ++ msg ++
        (if fields = [] then "" else
          " |" ++ String.join (fields.map fun f => " " ++ f.key ++ "=" ++ f.value.format)) ++
        "\n" := by
  apply String.ext
  cases fields with
  | nil => simp [textLog, textSegments, String.join_eq]
  | cons f fs => simp [textLog, textSegments, String.join_eq]

/-- C4: an emitter built with minimum severity S produces output for a
call at severity L ∈ {Debug, Info, Warn, Error} iff L ≥ S (the Go methods
test `l.level <= LevelX` on the iota values), for both the text and the
JSON variants; a Fatal call produces output for every minimum S. -/
theorem c4_emitters_filter_by_minimum (S L : LogLevel) (ts rfc msg : String)
    (fields : List Field) :
    (L ≠ .fatal →
      (((textEmit S L ts msg fields).1 ≠ []) ↔ S.toNat ≤ L.toNat) ∧
      (((jsonEmit S L rfc msg fields).1 ≠ []) ↔ S.toNat ≤ L.toNat)) ∧
    (textEmit S .fatal ts msg fields).1 ≠ [] ∧
    (jsonEmit S .fatal rfc msg fields).1 ≠ [] := by
  refine ⟨fun hL => ?_, ?_, ?_⟩
  · cases L <;> cases S <;>
      simp_all [textEmit, jsonEmit, textDebug, textInfo, textWarn, textError,
        textFatal, jsonDebug, jsonInfo, jsonWarn, jsonError, jsonFatal,
        jsonLog, LogLevel.toNat]
  · simp [textEmit, textFatal]
  · simp [jsonEmit, jsonFatal, jsonLog]

/-- C4 witness: at minimum Warn, an Info call writes nothing in either
format, an Error call writes in both, and a Fatal call writes in both. -/
theorem c4_emitters_filter_by_minimum_witness :
    ((textEmit .warn .info "ts" "m" []).1 = [] ∧
      (jsonEmit .warn .info "rfc" "m" []).1 = []) ∧
    ((textEmit .warn .error "ts" "m" []).1 ≠ [] ∧
      (jsonEmit .warn .error "rfc" "m" []).1 ≠ []) ∧
    ((textEmit .warn .fatal "ts" "m" []).1 ≠ [] ∧
      (jsonEmit .warn .fatal "rfc" "m" []).1 ≠ []) := by
  refine ⟨⟨?_, ?_⟩, ⟨?_, ?_⟩, ?_, ?_⟩
  · have h := ((c4_emitters_filter_by_minimum .warn .info "ts" "rfc" "m" []).1
      (by simp)).1
    exact not_ne_iff.mp fun hne =>
      (by decide : ¬ LogLevel.warn.toNat ≤ LogLevel.info.toNat) (h.mp hne)
  · have h := ((c4_emitters_filter_by_minimum .warn .info "ts" "rfc" "m" []).1
      (by simp)).2
    exact not_ne_iff.mp fun hne =>
      (by decide : ¬ LogLevel.warn.toNat ≤ LogLevel.info.toNat) (h.mp hne)
  · exact ((c4_emitters_filter_by_minimum .warn .error "ts" "rfc" "m" []).1
      (by simp)).1.mpr (by decide)
  · exact ((c4_emitters_filter_by_minimum .warn .error "ts" "rfc" "m" []).1
      (by simp)).2.mpr (by decide)
  · exact (c4_emitters_filter_by_minimum .warn .fatal "ts" "rfc" "m" []).2.1
  · exact (c4_emitters_filter_by_minimum .warn .fatal "ts" "rfc" "m" []).2.2

/-- C9: for every call at or above the configured minimum, the text
emitter writes exactly one string: `[<ts>] LEVEL: message`, then — only
when at least one field is present — the literal `" |"` separator and one
`" key=value"` segment per field in call order, terminated by a newline;
with no fields neither separator nor any key=value segment appears. -/
theorem c9_text_line_format (min lvl : LogLevel) (ts msg : String)
    (fields : List Field) (h : min.toNat ≤ lvl.toNat) :
    (textEmit min lvl ts msg fields).1 =
      ["[" ++ ts ++ "] " ++ lvl.upperString ++ ": " ++ msg ++
        (if fields = [] then "" else
          " |" ++ String.join (fields.map fun f => " " ++ f.key ++ "=" ++ f.value.format)) ++
        "\n"] := by
  cases lvl <;>
    simp_all [textEmit, textDebug, textInfo, textWarn, textError, textFatal,
      LogLevel.toNat, textLog_eq]

/-- C9 witness: the spec scenario — a text emitter at minimum Info logging
`Info("hello", {"user","alice"})` writes the one line
`[<ts>] INFO: hello | user=alice`, with the separator present; the same
call without fields writes the line without separator. -/
theorem c9_text_line_format_witness :
    (textEmit .info .info "12:00:00.000" "hello" [NewField "user" (.str "alice")]).1 =
      ["[12:00:00.000] INFO: hello | user=alice\n"] ∧
    (textEmit .info .info "12:00:00.000" "hello" []).1 =
      ["[12:00:00.000] INFO: hello\n"] := by
  constructor
  · rw [c9_text_line_format .info .info "12:00:00.000" "hello"
      [NewField "user" (.str "alice")] (by decide)]
    rfl
  · rw [c9_text_line_format .info .info "12:00:00.000" "hello" [] (by decide)]
    rfl

/-! ## Claim C5: the factory's failure points -/

/-- C5: `New` has exactly three failure points, each terminal with no
emitter returned: an unparseable minimum severity yields that parse error
(wrapping the unknown-level sentinel); console and file output both
disabled yields the no-outputs error; any format other than "text" or
"json" yields the wrapped unknown-format error.  `New` returns an emitter
iff none of the three conditions holds. -/
theorem c5_factory_failure_points (cfg : Config) :
    ((∃ l, New cfg = .ok l) ↔
      ((parseLevel cfg.log.level).2 = none ∧
        (cfg.log.console.enabled ∨ cfg.log.file.enabled) ∧
        (cfg.log.format = FormatText ∨ cfg.log.format = FormatJSON))) ∧
    (∀ e, (parseLevel cfg.log.level).2 = some e → New cfg = .error e) ∧
    ((parseLevel cfg.log.level).2 = none → ¬cfg.log.console.enabled →
      ¬cfg.log.file.enabled → New cfg = .error .noLogOutputs) ∧
    ((parseLevel cfg.log.level).2 = none →
      (cfg.log.console.enabled ∨ cfg.log.file.enabled) →
      cfg.log.format ≠ FormatText → cfg.log.format ≠ FormatJSON →
      New cfg = .error (.unknownLogFormat cfg.log.format)) := by
  rcases hp : parseLevel cfg.log.level with ⟨lvl, e?⟩
  cases e? with
  | some e => simp [New, hp]
  | none =>
    by_cases hc : cfg.log.console.enabled <;>
      by_cases hf : cfg.log.file.enabled <;>
        by_cases ht : cfg.log.format = FormatText <;>
          by_cases hj : cfg.log.format = FormatJSON <;>
            simp_all [New, newWriters, FormatText, FormatJSON]

/-- C5 witness: with both outputs disabled `New` fails with the no-outputs
error (the spec's `Init` scenario), and with console enabled, a good
level and format "text" it returns an emitter. -/
theorem c5_factory_failure_points_witness :
    New sampleCfgNoOut = .error .noLogOutputs ∧
    ∃ l, New sampleCfgText = .ok l := by
  constructor
  · exact (c5_factory_failure_points sampleCfgNoOut).2.2.1 (by rfl)
      (by decide) (by decide)
  · exact (c5_factory_failure_points sampleCfgText).1.mpr
      ⟨by rfl, Or.inl (by decide), Or.inl (by rfl)⟩

/-! ## Claims C6 and C10: the uninitialized registry -/

/-- C6, counterexample: with no global emitter installed, the package-level
`Fatal` is NOT a silent no-op — `logger.go` runs `os.Exit(1)`
unconditionally after the nil check, so the call terminates the process
with exit code 1.  (It does write nothing and buffer nothing.) -/
theorem c6_fatal_not_noop_counterexample :
    (globalFatal none sampleTime "ts" "rfc" "boom" []).2.2 = some 1 := by
  rfl

/-- C6, amended: in the Uninitialized state the package-level `Debug`,
`Info`, `Warn` and `Error` are silent no-ops — no write, no buffering, no
state change, no exit; `Fatal` likewise writes nothing and buffers
nothing, but terminates the process with exit code 1 (its `os.Exit(1)`
runs whether or not a logger is installed). -/
theorem c6_uninitialized_calls (now : Time) (ts rfc msg : String)
    (fields : List Field) :
    globalDebug none now ts rfc msg fields = (none, [], none) ∧
    globalInfo none now ts rfc msg fields = (none, [], none) ∧
    globalWarn none now ts rfc msg fields = (none, [], none) ∧
    globalError none now ts rfc msg fields = (none, [], none) ∧
    globalFatal none now ts rfc msg fields = (none, [], some 1) := by
  refine ⟨rfl, rfl, rfl, rfl, rfl⟩

/-- C10: for every message, fields and registry state, the package-level
`Fatal` terminates the process with exit code 1 — unconditionally, whether
nothing, the bootstrap buffer, or a real emitter is installed — and in the
Uninitialized state it does so while writing nothing and buffering
nothing. -/
theorem c10_global_fatal_always_exits (st : GlobalState) (now : Time)
    (ts rfc msg : String) (fields : List Field) :
    (globalFatal st now ts rfc msg fields).2.2 = some 1 ∧
    (st = none → globalFatal st now ts rfc msg fields = (none, [], some 1)) := by
  constructor
  · match st with
    | none => rfl
    | some (.buffered es) => rfl
    | some (.real (.text level out)) => rfl
    | some (.real (.json level out)) => rfl
  · rintro rfl
    rfl

/-- C10 witness: the uninitialized instance — `Fatal("boom")` with no
logger installed exits with code 1 and neither writes nor buffers. -/
theorem c10_global_fatal_always_exits_witness :
    globalFatal none sampleTime "ts" "rfc" "boom" [] = (none, [], some 1) :=
  (c10_global_fatal_always_exits none sampleTime "ts" "rfc" "boom" []).2 rfl

/-! ## Claim C2: UpgradeFromBootstrap -/

/-- The factory's result does not depend on the buffer its diagnostics land
in: `NewLogged` returns exactly what `New` returns. -/
theorem NewLogged_fst (cfg : Config) (now : Time) (es : List logEntry) :
    (NewLogged cfg now es).1 = New cfg := by
  rcases hp : parseLevel cfg.log.level with ⟨lvl, e?⟩
  cases e?
  all_goals simp only [NewLogged, New, hp]
  all_goals split_ifs
  all_goals rfl

/-- The factory only ever appends diagnostics to the buffer: the original
entries stay, in order, as a prefix. -/
theorem NewLogged_snd_prefix (cfg : Config) (now : Time) (es : List logEntry) :
    es <+: (NewLogged cfg now es).2 := by
  rcases hp : parseLevel cfg.log.level with ⟨lvl, e?⟩
  cases e?
  all_goals simp only [NewLogged, hp, bufferedDebug, bufferedInfo,
    bufferedError, bufferedAppend]
  all_goals try split_ifs
  all_goals simp only [List.append_assoc]
  all_goals exact List.prefix_append _ _

/-- The buffer holding `Fatal("z")` then `Info("never")`, for the C2
counterexample. -/
def c2Buffer : List logEntry :=
  [⟨sampleTime, "fatal", "z", []⟩, ⟨sampleTime, "info", "never", []⟩]

/-- C2, counterexample: with a valid configuration the factory succeeds,
yet upgrading from a bootstrap buffer that contains a fatal entry does NOT
replay every buffered entry and does NOT return nil: replay reaches the
fatal entry, invokes the new emitter's terminal `Fatal`, and the process
exits (code 1) before `Info("never")` is re-emitted, before the new
emitter is installed, and before the function can return. -/
theorem c2_fatal_buffer_counterexample :
    New sampleCfgText = .ok (.text .info [.stdout]) ∧
    (UpgradeFromBootstrap sampleFmt sampleTime "ts" "rfc" sampleCfgText c2Buffer).ret
      = none ∧
    (UpgradeFromBootstrap sampleFmt sampleTime "ts" "rfc" sampleCfgText c2Buffer).exited
      = some 1 ∧
    (UpgradeFromBootstrap sampleFmt sampleTime "ts" "rfc" sampleCfgText c2Buffer).replayed
      = [.fatal "z" [NewField "bootstrap" (.bool true),
                     NewField "timestamp" (.str (sampleFmt sampleTime))]] := by
  refine ⟨rfl, rfl, rfl, rfl⟩

/-- C2, amended: when the factory fails, `UpgradeFromBootstrap` returns
that error and the bootstrap buffer remains the current global emitter (no
partial upgrade state); when the factory succeeds, the buffered entries —
the original entries first, in order, then the diagnostics appended while
upgrading — are replayed into the new emitter before anything is
installed: if replay completes without reaching a fatal entry, the new
emitter is then installed as current and nil is returned, while if replay
reaches a fatal entry the process terminates (exit code 1) with the buffer
still current, the new emitter never installed, and nothing returned. -/
theorem c2_upgrade_amended (fmt3339 : Time → String) (now : Time)
    (ts rfc : String) (cfg : Config) (es : List logEntry) :
    (∀ e, New cfg = .error e →
      (UpgradeFromBootstrap fmt3339 now ts rfc cfg es).ret = some (some e) ∧
      (∃ es', (UpgradeFromBootstrap fmt3339 now ts rfc cfg es).final
        = some (.buffered es')) ∧
      (UpgradeFromBootstrap fmt3339 now ts rfc cfg es).exited = none ∧
      (UpgradeFromBootstrap fmt3339 now ts rfc cfg es).replayed = []) ∧
    (∀ impl, New cfg = .ok impl →
      ∃ es', es <+: es' ∧
        (UpgradeFromBootstrap fmt3339 now ts rfc cfg es).replayed
          = (replayLoop fmt3339 es').1 ∧
        ((replayLoop fmt3339 es').2 = false →
          (UpgradeFromBootstrap fmt3339 now ts rfc cfg es).ret = some none ∧
          (UpgradeFromBootstrap fmt3339 now ts rfc cfg es).final
            = some (.real impl) ∧
          (UpgradeFromBootstrap fmt3339 now ts rfc cfg es).exited = none) ∧
        ((replayLoop fmt3339 es').2 = true →
          (UpgradeFromBootstrap fmt3339 now ts rfc cfg es).ret = none ∧
          (UpgradeFromBootstrap fmt3339 now ts rfc cfg es).final
            = some (.buffered es') ∧
          (UpgradeFromBootstrap fmt3339 now ts rfc cfg es).exited = some 1)) := by
  rcases hN : NewLogged cfg now (bufferedDebug es now "upgrading from bootstrap logger"
      [NewField "buffered_logs" (.int (bufferedCount es))]) with ⟨res, es2⟩
  have hres : res = New cfg := by
    have h := NewLogged_fst cfg now (bufferedDebug es now
      "upgrading from bootstrap logger"
      [NewField "buffered_logs" (.int (bufferedCount es))])
    rw [hN] at h
    exact h
  have hpre : es <+: es2 := by
    have h1 : es <+: bufferedDebug es now "upgrading from bootstrap logger"
        [NewField "buffered_logs" (.int (bufferedCount es))] := by
      exact ⟨_, rfl⟩
    have h2 := NewLogged_snd_prefix cfg now (bufferedDebug es now
      "upgrading from bootstrap logger"
      [NewField "buffered_logs" (.int (bufferedCount es))])
    rw [hN] at h2
    exact h1.trans h2
  constructor
  · intro e hE
    have hre : res = Except.error e := hres.trans hE
    subst hre
    have hfin : (UpgradeFromBootstrap fmt3339 now ts rfc cfg es).final =
        some (.buffered (bufferedError es2 now
          "failed to create real logger during upgrade"
          [NewField "error" (.str e.message)])) := by
      simp [UpgradeFromBootstrap, hN]
    exact ⟨by simp [UpgradeFromBootstrap, hN], ⟨_, hfin⟩,
      by simp [UpgradeFromBootstrap, hN], by simp [UpgradeFromBootstrap, hN]⟩
  · intro impl hOk
    have : res = Except.ok impl := hres.trans hOk
    subst this
    refine ⟨es2, hpre, ?_, ?_, ?_⟩
    · simp only [UpgradeFromBootstrap, hN]
      by_cases hr : (replayLoop fmt3339 es2).2 <;> simp [hr]
    · intro hr
      simp only [UpgradeFromBootstrap, hN]
      simp [hr]
    · intro hr
      simp only [UpgradeFromBootstrap, hN]
      simp [hr]

/-- C2 witness: upgrading with the no-outputs configuration returns the
no-outputs error (and, per the theorem, leaves the buffer current). -/
theorem c2_upgrade_amended_witness :
    (UpgradeFromBootstrap sampleFmt sampleTime "ts" "rfc" sampleCfgNoOut []).ret
      = some (some .noLogOutputs) :=
  ((c2_upgrade_amended sampleFmt sampleTime "ts" "rfc" sampleCfgNoOut []).1
    .noLogOutputs (by rfl)).1

end LaziSpace
